import Mathlib

/-!
Verification of the appkey credential checker, `src/appkey/client.go` of
thepudds/bluesky-aux.

The package exports a single function `Check` together with three sentinel
error values.  `Check` parses the session's access and refresh JWTs without
signature verification (via `jwt.NewParser().ParseUnverified` of
golang-jwt/jwt/v5), requires the access token's `scope` claim to equal
`"com.atproto.appPass"`, requires the access token's expiration to not lie
strictly in the past, and requires the refresh token to decode with a
readable expiration claim.

The jwt library is external to the repository; its observable behaviour is
modelled here:

* `ParseUnverified` either fails on a syntactically malformed token string or
  yields the decoded claims map.  A token string is therefore represented by
  its parse outcome (`Jwt`), since the checker observes nothing else about it.
* `MapClaims.GetExpirationTime` (via `parseNumericDate "exp"`) returns
  `(nil, nil)` when the `exp` claim is absent or is the float `0`, returns an
  invalid-type error when `exp` is present but not numeric, and otherwise
  returns the numeric date.  JSON numbers decoded into a `MapClaims` are
  modelled as integers; time instants are abstract integers, and
  `time.Until t < 0` holds exactly when `t` is strictly before the current
  instant.
* Go error values are modelled with the wrapping produced by `fmt.Errorf`'s
  `%w` verbs made explicit, so that `errors.Is` can be expressed.
* A nil-pointer dereference (which Go code performs when it selects a field
  of a nil `*jwt.NumericDate`) is an observable outcome, `CheckResult.panicked`.
-/

namespace Appkey

/-- A decoded JSON claim value, i.e. a Go interface value produced by JSON
decoding of a token payload.  Numbers are modelled as integers. -/
inductive JSONValue where
  | str (s : String)
  | num (n : Int)
  | boolean (b : Bool)
  | null
  deriving DecidableEq, Repr

/-- jwt.MapClaims: the claims map decoded from a token payload.  Go map
indexing on a missing key yields the nil interface value, modelled by
`List.lookup` returning `none`. -/
abbrev MapClaims := List (String × JSONValue)

/-- A token string as consumed by `jwt.NewParser().ParseUnverified`,
represented by its parse outcome: either syntactically malformed (cannot be
split and base64/JSON-decoded as a three-segment signed token) or a decodable
payload of claims.  The checker observes nothing else about the string. -/
inductive Jwt where
  | malformed (raw : String)
  | valid (claims : MapClaims)
  deriving DecidableEq, Repr

/-- atproto.ServerCreateSession_Output: the session value returned by a login
call.  `Check` reads only the `AccessJwt` and `RefreshJwt` fields; the
remaining fields model the other session data (handle, DID, email). -/
structure ServerCreateSession_Output where
  accessJwt : Jwt
  refreshJwt : Jwt
  handle : String
  did : String
  email : Option String
  deriving DecidableEq, Repr

/-- Go error values arising in `Check`.  The first three constructors are the
package-level sentinels created with `errors.New`; `unauthorizedMaster` is
`fmt.Errorf("%w: %w", ErrLoginUnauthorized, ErrMasterCredentials)`;
`sessionExpiredAt t` is `fmt.Errorf("%w: refresh token was valid until %v",
ErrSessionExpired, t)`; `jwtParseError` is a parse error from
`ParseUnverified`; `claimsInvalidType` is the `ErrInvalidType`-wrapped error
from `MapClaims.parseNumericDate`. -/
inductive GoError where
  | errLoginUnauthorized
  | errMasterCredentials
  | errSessionExpired
  | jwtParseError (reason : String)
  | claimsInvalidType (key : String)
  | unauthorizedMaster
  | sessionExpiredAt (t : Int)
  deriving DecidableEq, Repr

/-- errors.Is: an error matches a target if it is the target or wraps it via
the `%w` verbs of `fmt.Errorf`. -/
def errorsIs (e target : GoError) : Bool :=
  e == target ||
    match e with
    | .unauthorizedMaster =>
        target == .errLoginUnauthorized || target == .errMasterCredentials
    | .sessionExpiredAt _ => target == .errSessionExpired
    | _ => false

/-- Rendering of a time instant by the `%v` verb of `fmt.Errorf`.  Instants
are abstract integers, rendered in decimal. -/
def formatTime (t : Int) : String := toString t

/-- The `Error()` string of each error value. -/
def GoError.message : GoError → String
  | .errLoginUnauthorized => "unauthorized"
  | .errMasterCredentials => "master credentials used"
  | .errSessionExpired => "session expired"
  | .jwtParseError reason => "token is malformed: " ++ reason
  | .claimsInvalidType key => key ++ " is invalid"
  | .unauthorizedMaster => "unauthorized: master credentials used"
  | .sessionExpiredAt t =>
      "session expired: refresh token was valid until " ++ formatTime t

/-- jwt.NewParser().ParseUnverified with a `jwt.MapClaims{}` target: a
malformed token string yields a parse error, otherwise the decoded claims.
The type assertion `token.Claims.(jwt.MapClaims)` in `Check` always succeeds
because the parser was handed a `MapClaims` target, so it is not a separate
outcome here. -/
def ParseUnverified : Jwt → Except GoError MapClaims
  | .malformed reason => .error (.jwtParseError reason)
  | .valid claims => .ok claims

/-- jwt.MapClaims.GetExpirationTime, i.e. `parseNumericDate "exp"`: a missing
`exp` claim, or a numeric `exp` equal to zero, yields no date and no error
(`.ok none`); a present but non-numeric `exp` yields an invalid-type error;
otherwise the numeric date. -/
def GetExpirationTime (m : MapClaims) : Except GoError (Option Int) :=
  match m.lookup "exp" with
  | none => .ok none
  | some (.num n) => if n = 0 then .ok none else .ok (some n)
  | some _ => .error (.claimsInvalidType "exp")

/-- The observable outcome of a call to `Check`: the nil error, a non-nil
error, or a run-time panic. -/
inductive CheckResult where
  | ok
  | err (e : GoError)
  | panicked (msg : String)
  deriving DecidableEq, Repr

/-- Lines 43 to 62 of `Check`: parse the access token, test the `scope`
claim, read the access expiration and compare it with the current time.
Returns `some r` when `Check` exits with outcome `r` before the refresh token
is examined, `none` when control reaches the refresh token.  When
`GetExpirationTime` yields neither an error nor a date, the Go code selects
`current.Time` on the nil `*jwt.NumericDate` inside
`time.Until(current.Time)` and panics. -/
def checkAccess (now : Int) (accessJwt : Jwt) : Option CheckResult :=
  match ParseUnverified accessJwt with
  | .error e => some (.err e)
  | .ok claims =>
    if claims.lookup "scope" ≠ some (.str "com.atproto.appPass") then
      some (.err .unauthorizedMaster)
    else
      match GetExpirationTime claims with
      | .error e => some (.err e)
      | .ok none =>
          some (.panicked
            "runtime error: invalid memory address or nil pointer dereference")
      | .ok (some current) =>
          if current - now < 0 then
            some (.err (.sessionExpiredAt current))
          else
            none

/-- Lines 64 to 75 of `Check`: parse the refresh token and read its
expiration claim.  The returned expiration value is discarded; only the
error result of `GetExpirationTime` is tested, so the refresh expiration is
never compared with the current time, and an absent refresh expiration
produces no error. -/
def checkRefresh (refreshJwt : Jwt) : CheckResult :=
  match ParseUnverified refreshJwt with
  | .error e => .err e
  | .ok claims =>
    match GetExpirationTime claims with
    | .error e => .err e
    | .ok _ => .ok

/-- `Check` (src/appkey/client.go lines 42 to 76): validate that the
session's access token is an unexpired application key and that its refresh
token decodes with a readable expiration claim.  `now` is the current time
consulted by `time.Until`. -/
def Check (now : Int) (sess : ServerCreateSession_Output) : CheckResult :=
  match checkAccess now sess.accessJwt with
  | some r => r
  | none => checkRefresh sess.refreshJwt

/-- `Check` with the session value threaded explicitly through every step of
its body, so that any assignment to the session would be visible in the
returned session.  The Go body never assigns through `sess`, so every exit
returns the session it received. -/
def CheckWithState (now : Int) (sess : ServerCreateSession_Output) :
    CheckResult × ServerCreateSession_Output :=
  match ParseUnverified sess.accessJwt with
  | .error e => (.err e, sess)
  | .ok claims =>
    if claims.lookup "scope" ≠ some (.str "com.atproto.appPass") then
      (.err .unauthorizedMaster, sess)
    else
      match GetExpirationTime claims with
      | .error e => (.err e, sess)
      | .ok none =>
          (.panicked
            "runtime error: invalid memory address or nil pointer dereference",
           sess)
      | .ok (some current) =>
          if current - now < 0 then
            (.err (.sessionExpiredAt current), sess)
          else
            match ParseUnverified sess.refreshJwt with
            | .error e => (.err e, sess)
            | .ok rclaims =>
              match GetExpirationTime rclaims with
              | .error e => (.err e, sess)
              | .ok _ => (.ok, sess)

/-- C1: for every session whose access token decodes to a claims set in which
the scope claim is not exactly the string "com.atproto.appPass" (including
when the claim is absent), `Check` returns the non-nil error
`unauthorizedMaster`, which matches both the Unauthorized sentinel and the
Master-Credentials sentinel under `errorsIs`. -/
theorem check_wrong_scope_unauthorized_master (now : Int)
    (sess : ServerCreateSession_Output) (claims : MapClaims)
    (ha : sess.accessJwt = .valid claims)
    (hs : claims.lookup "scope" ≠ some (.str "com.atproto.appPass")) :
    Check now sess = .err .unauthorizedMaster ∧
    errorsIs .unauthorizedMaster .errLoginUnauthorized = true ∧
    errorsIs .unauthorizedMaster .errMasterCredentials = true := by
  refine ⟨?_, by decide, by decide⟩
  simp [Check, checkAccess, ParseUnverified, ha, hs]

/-- Witness for C1: a concrete session whose access token carries scope
"com.atproto.full" is rejected with an error matching both sentinels. -/
theorem check_wrong_scope_unauthorized_master_witness :
    Check 0
        { accessJwt := .valid [("scope", .str "com.atproto.full")],
          refreshJwt := .valid [("exp", .num 100)],
          handle := "alice.test", did := "did:plc:abc", email := none }
      = .err .unauthorizedMaster ∧
    errorsIs .unauthorizedMaster .errLoginUnauthorized = true ∧
    errorsIs .unauthorizedMaster .errMasterCredentials = true :=
  check_wrong_scope_unauthorized_master 0 _ [("scope", .str "com.atproto.full")]
    rfl (by decide)

/-- C2: for every session whose access token has scope "com.atproto.appPass"
and whose expiration timestamp (as extracted by `GetExpirationTime`) is
strictly before the current time, `Check` returns an error matching the
Session-Expired sentinel, and the error's text contains the rendered
expiration timestamp. -/
theorem check_expired_session (now : Int)
    (sess : ServerCreateSession_Output) (claims : MapClaims) (t : Int)
    (ha : sess.accessJwt = .valid claims)
    (hs : claims.lookup "scope" = some (.str "com.atproto.appPass"))
    (he : GetExpirationTime claims = .ok (some t))
    (hlt : t < now) :
    Check now sess = .err (.sessionExpiredAt t) ∧
    errorsIs (.sessionExpiredAt t) .errSessionExpired = true ∧
    ∃ pre post,
      (GoError.sessionExpiredAt t).message = pre ++ formatTime t ++ post := by
  have hneg : t - now < 0 := by omega
  refine ⟨?_, by simp [errorsIs], "session expired: refresh token was valid until ", "", by simp [GoError.message]⟩
  simp [Check, checkAccess, ParseUnverified, ha, hs, he, hneg]

/-- Witness for C2: a concrete session whose access token expired at instant
7 is rejected at instant 10 with a Session-Expired error mentioning 7. -/
theorem check_expired_session_witness :
    Check 10
        { accessJwt :=
            .valid [("scope", .str "com.atproto.appPass"), ("exp", .num 7)],
          refreshJwt := .valid [("exp", .num 100)],
          handle := "alice.test", did := "did:plc:abc", email := none }
      = .err (.sessionExpiredAt 7) ∧
    errorsIs (.sessionExpiredAt 7) .errSessionExpired = true ∧
    ∃ pre post,
      (GoError.sessionExpiredAt 7).message = pre ++ formatTime 7 ++ post :=
  check_expired_session 10 _
    [("scope", .str "com.atproto.appPass"), ("exp", .num 7)] 7
    rfl (by decide) rfl (by decide)

/-- Session used in the counterexample to C3: a decodable access token with a
wrong scope together with a malformed refresh token. -/
def c3Session : ServerCreateSession_Output :=
  { accessJwt := .valid [("scope", .str "com.atproto.full")],
    refreshJwt := .malformed "not-a-jwt",
    handle := "alice.test", did := "did:plc:abc", email := none }

/-- Counterexample to C3: `c3Session` has a syntactically malformed refresh
token, yet `Check` returns the scope error, which does match the
Unauthorized sentinel — so "either token malformed implies an error matching
none of the three sentinels" fails at this input. -/
theorem check_malformed_counterexample :
    c3Session.refreshJwt = .malformed "not-a-jwt" ∧
    Check 0 c3Session = .err .unauthorizedMaster ∧
    errorsIs .unauthorizedMaster .errLoginUnauthorized = true := by
  decide

/-- C3 (amended): if the access token is syntactically malformed, or the
access token passes the scope and expiration checks and the refresh token is
syntactically malformed, then `Check` returns a non-nil parse error matching
none of the three sentinel conditions. -/
theorem check_malformed_token_generic_error (now : Int)
    (sess : ServerCreateSession_Output)
    (h : (∃ reason, sess.accessJwt = .malformed reason) ∨
         (∃ claims t reason, sess.accessJwt = .valid claims ∧
            claims.lookup "scope" = some (.str "com.atproto.appPass") ∧
            GetExpirationTime claims = .ok (some t) ∧ ¬ t - now < 0 ∧
            sess.refreshJwt = .malformed reason)) :
    ∃ reason, Check now sess = .err (.jwtParseError reason) ∧
      errorsIs (.jwtParseError reason) .errLoginUnauthorized = false ∧
      errorsIs (.jwtParseError reason) .errMasterCredentials = false ∧
      errorsIs (.jwtParseError reason) .errSessionExpired = false := by
  rcases h with ⟨reason, ha⟩ | ⟨claims, t, reason, ha, hs, he, hnlt, hr⟩
  · exact ⟨reason, by simp [Check, checkAccess, ParseUnverified, ha],
      by simp [errorsIs], by simp [errorsIs], by simp [errorsIs]⟩
  · refine ⟨reason, ?_, by simp [errorsIs], by simp [errorsIs],
      by simp [errorsIs]⟩
    simp [Check, checkAccess, checkRefresh, ParseUnverified, ha, hs, he,
      hnlt, hr]

/-- Witness for C3 (amended): a session with a malformed access token yields
a non-sentinel parse error. -/
theorem check_malformed_token_generic_error_witness :
    ∃ reason,
      Check 0
          { accessJwt := .malformed "garbage",
            refreshJwt := .valid [("exp", .num 100)],
            handle := "alice.test", did := "did:plc:abc", email := none }
        = .err (.jwtParseError reason) ∧
      errorsIs (.jwtParseError reason) .errLoginUnauthorized = false ∧
      errorsIs (.jwtParseError reason) .errMasterCredentials = false ∧
      errorsIs (.jwtParseError reason) .errSessionExpired = false :=
  check_malformed_token_generic_error 0 _ (Or.inl ⟨"garbage", rfl⟩)

/-- C4: for every session whose access token has scope "com.atproto.appPass"
and an expiration in the future, and whose refresh token decodes with an
extractable expiration of any value `rexp` — the statement places no
constraint whatsoever on `rexp`, so in particular it may lie in the past —
`Check` returns nil.  The refresh expiration is thus never compared against
the current time. -/
theorem check_valid_appkey_ok (now : Int)
    (sess : ServerCreateSession_Output) (aclaims rclaims : MapClaims)
    (texp rexp : Int)
    (ha : sess.accessJwt = .valid aclaims)
    (hs : aclaims.lookup "scope" = some (.str "com.atproto.appPass"))
    (he : GetExpirationTime aclaims = .ok (some texp))
    (hfut : now < texp)
    (hr : sess.refreshJwt = .valid rclaims)
    (hre : GetExpirationTime rclaims = .ok (some rexp)) :
    Check now sess = .ok := by
  have hnlt : ¬ texp - now < 0 := by omega
  simp [Check, checkAccess, checkRefresh, ParseUnverified, ha, hs, he,
    hnlt, hr, hre]

/-- Witness for C4: an access token expiring at instant 100 checked at
instant 0, with a refresh token whose expiration, instant 5 at checking
time 0... is taken far in the past by checking at time 50 instead: access
expiration 100 is in the future, refresh expiration 5 is in the past, and
`Check` still returns nil. -/
theorem check_valid_appkey_ok_witness :
    Check 50
        { accessJwt :=
            .valid [("scope", .str "com.atproto.appPass"), ("exp", .num 100)],
          refreshJwt := .valid [("exp", .num 5)],
          handle := "alice.test", did := "did:plc:abc", email := none }
      = .ok :=
  check_valid_appkey_ok 50 _
    [("scope", .str "com.atproto.appPass"), ("exp", .num 100)]
    [("exp", .num 5)] 100 5 rfl (by decide) rfl (by decide) rfl rfl

/-- C5: `Check` stops at the first failing check.  For a session whose access
token decodes with a wrong scope and is also already expired, the result is
the scope error (matching Master-Credentials, not Session-Expired); moreover
the result is unchanged under any replacement of the refresh token, and, in
general, whenever the access-token phase exits early the refresh token is
never examined. -/
theorem check_first_failing_check (now : Int)
    (sess : ServerCreateSession_Output) (claims : MapClaims) (t : Int)
    (ha : sess.accessJwt = .valid claims)
    (hs : claims.lookup "scope" ≠ some (.str "com.atproto.appPass"))
    (_he : GetExpirationTime claims = .ok (some t))
    (_hlt : t < now) :
    Check now sess = .err .unauthorizedMaster ∧
    errorsIs .unauthorizedMaster .errMasterCredentials = true ∧
    errorsIs .unauthorizedMaster .errSessionExpired = false ∧
    (∀ rj, Check now { sess with refreshJwt := rj } = Check now sess) ∧
    (∀ (s : ServerCreateSession_Output) (r : CheckResult),
      checkAccess now s.accessJwt = some r →
      ∀ rj, Check now { s with refreshJwt := rj } = Check now s) := by
  have hacc : checkAccess now sess.accessJwt =
      some (.err .unauthorizedMaster) := by
    simp [checkAccess, ParseUnverified, ha, hs]
  refine ⟨by simp [Check, hacc], by decide, by decide, ?_, ?_⟩
  · intro rj
    simp [Check, hacc]
  · intro s r hr rj
    simp [Check, hr]

/-- Witness for C5: an access token with scope "com.atproto.full" that
expired at instant 3, checked at instant 10, yields the scope error. -/
theorem check_first_failing_check_witness :
    Check 10
        { accessJwt :=
            .valid [("scope", .str "com.atproto.full"), ("exp", .num 3)],
          refreshJwt := .valid [("exp", .num 100)],
          handle := "alice.test", did := "did:plc:abc", email := none }
      = .err .unauthorizedMaster ∧
    errorsIs .unauthorizedMaster .errMasterCredentials = true ∧
    errorsIs .unauthorizedMaster .errSessionExpired = false ∧
    (∀ rj,
      Check 10
          { accessJwt :=
              .valid [("scope", .str "com.atproto.full"), ("exp", .num 3)],
            refreshJwt := rj,
            handle := "alice.test", did := "did:plc:abc", email := none }
        = Check 10
            { accessJwt :=
                .valid [("scope", .str "com.atproto.full"), ("exp", .num 3)],
              refreshJwt := .valid [("exp", .num 100)],
              handle := "alice.test", did := "did:plc:abc", email := none }) ∧
    (∀ (s : ServerCreateSession_Output) (r : CheckResult),
      checkAccess 10 s.accessJwt = some r →
      ∀ rj, Check 10 { s with refreshJwt := rj } = Check 10 s) :=
  check_first_failing_check 10 _
    [("scope", .str "com.atproto.full"), ("exp", .num 3)] 3
    rfl (by decide) rfl (by decide)

/-- C6: the result of `Check` is a function of the session and the current
time alone, and its time dependence is only through the expiry status of the
access token's expiration: two current times at which that status agrees
yield identical results.  Determinism and idempotence are the special case
of equal times. -/
theorem check_time_stable (now now' : Int)
    (sess : ServerCreateSession_Output)
    (h : ∀ claims t, sess.accessJwt = .valid claims →
        GetExpirationTime claims = .ok (some t) →
        (t - now < 0 ↔ t - now' < 0)) :
    Check now sess = Check now' sess := by
  cases haj : sess.accessJwt with
  | malformed reason => simp [Check, checkAccess, ParseUnverified, haj]
  | valid claims =>
    by_cases hs : claims.lookup "scope" ≠ some (.str "com.atproto.appPass")
    · simp [Check, checkAccess, ParseUnverified, haj, hs]
    · cases hg : GetExpirationTime claims with
      | error e => simp [Check, checkAccess, ParseUnverified, haj, hs, hg]
      | ok o =>
        cases o with
        | none => simp [Check, checkAccess, ParseUnverified, haj, hs, hg]
        | some t =>
          have hiff := h claims t haj hg
          by_cases hlt : t - now < 0
          · have hlt' : t - now' < 0 := hiff.mp hlt
            simp [Check, checkAccess, ParseUnverified, haj, hs, hg, hlt, hlt']
          · have hlt' : ¬ t - now' < 0 := fun hc => hlt (hiff.mpr hc)
            simp [Check, checkAccess, ParseUnverified, haj, hs, hg, hlt, hlt']

/-- Witness for C6: instants 5 and 6 both precede the access expiration 10
of a concrete session, and `Check` returns identical results at both. -/
theorem check_time_stable_witness :
    Check 5
        { accessJwt :=
            .valid [("scope", .str "com.atproto.appPass"), ("exp", .num 10)],
          refreshJwt := .valid [("exp", .num 10)],
          handle := "alice.test", did := "did:plc:abc", email := none }
      = Check 6
          { accessJwt :=
              .valid [("scope", .str "com.atproto.appPass"), ("exp", .num 10)],
            refreshJwt := .valid [("exp", .num 10)],
            handle := "alice.test", did := "did:plc:abc", email := none } := by
  apply check_time_stable
  intro claims t hc he
  injection hc with hc
  subst hc
  rw [show GetExpirationTime
      [("scope", JSONValue.str "com.atproto.appPass"), ("exp", .num 10)]
    = Except.ok (some 10) from rfl] at he
  injection he with he
  injection he with he
  omega

/-- Session used in the counterexample to C7: a passing access token and a
refresh token that decodes but carries no "exp" claim at all. -/
def c7Session : ServerCreateSession_Output :=
  { accessJwt :=
      .valid [("scope", .str "com.atproto.appPass"), ("exp", .num 100)],
    refreshJwt := .valid [("iat", .num 1)],
    handle := "alice.test", did := "did:plc:abc", email := none }

/-- Counterexample to C7: the refresh token of `c7Session` decodes
structurally and its expiration claim is absent, yet `Check` returns nil —
because `GetExpirationTime` reports no error for an absent "exp" claim.  So
"an absent expiration claim yields a non-nil error" fails at this input. -/
theorem check_refresh_missing_exp_counterexample :
    c7Session.refreshJwt = .valid [("iat", .num 1)] ∧
    ([("iat", JSONValue.num 1)] : MapClaims).lookup "exp" = none ∧
    Check 0 c7Session = .ok := by
  decide

/-- C7 (amended): for every session whose access token passes the scope and
expiration checks and whose refresh token decodes structurally but carries an
expiration claim whose value is not numeric — so that its extraction fails —
`Check` returns the non-nil invalid-type error.  (An absent expiration claim,
by contrast, extracts without error and is accepted.) -/
theorem check_refresh_bad_exp_error (now : Int)
    (sess : ServerCreateSession_Output) (aclaims rclaims : MapClaims)
    (texp : Int) (v : JSONValue)
    (ha : sess.accessJwt = .valid aclaims)
    (hs : aclaims.lookup "scope" = some (.str "com.atproto.appPass"))
    (he : GetExpirationTime aclaims = .ok (some texp))
    (hnlt : ¬ texp - now < 0)
    (hr : sess.refreshJwt = .valid rclaims)
    (hv : rclaims.lookup "exp" = some v)
    (hnum : ∀ n : Int, v ≠ .num n) :
    Check now sess = .err (.claimsInvalidType "exp") := by
  have hg : GetExpirationTime rclaims = .error (.claimsInvalidType "exp") := by
    unfold GetExpirationTime
    rw [hv]
    cases v with
    | num n => exact absurd rfl (hnum n)
    | str s => rfl
    | boolean b => rfl
    | null => rfl
  simp [Check, checkAccess, checkRefresh, ParseUnverified, ha, hs, he,
    hnlt, hr, hg]

/-- Witness for C7 (amended): a refresh token whose "exp" claim holds the
string "soon" makes `Check` fail with the invalid-type error. -/
theorem check_refresh_bad_exp_error_witness :
    Check 0
        { accessJwt :=
            .valid [("scope", .str "com.atproto.appPass"), ("exp", .num 100)],
          refreshJwt := .valid [("exp", .str "soon")],
          handle := "alice.test", did := "did:plc:abc", email := none }
      = .err (.claimsInvalidType "exp") :=
  check_refresh_bad_exp_error 0 _
    [("scope", .str "com.atproto.appPass"), ("exp", .num 100)]
    [("exp", .str "soon")] 100 (.str "soon")
    rfl (by decide) rfl (by decide) rfl (by decide) (by intro n h; cases h)

/-- C8: `Check` does not mutate its input.  Running the body with the session
value threaded through every step returns the session unchanged on every
path, with the nil-or-error outcome as the only effect, and that outcome is
exactly the one `Check` returns. -/
theorem check_no_mutation (now : Int) (sess : ServerCreateSession_Output) :
    (CheckWithState now sess).2 = sess ∧
    (CheckWithState now sess).1 = Check now sess := by
  unfold CheckWithState Check checkAccess checkRefresh
  cases ParseUnverified sess.accessJwt with
  | error e => simp
  | ok claims =>
    by_cases hs : claims.lookup "scope" ≠ some (.str "com.atproto.appPass")
    · simp [hs]
    · cases hg : GetExpirationTime claims with
      | error e => simp [hs, hg]
      | ok o =>
        cases o with
        | none => simp [hs, hg]
        | some current =>
          by_cases hlt : current - now < 0
          · simp [hs, hg, hlt]
          · cases ParseUnverified sess.refreshJwt with
            | error e => simp [hs, hg, hlt]
            | ok rclaims =>
              cases hge : GetExpirationTime rclaims with
              | error e => simp [hs, hg, hlt, hge]
              | ok o2 => simp [hs, hg, hlt, hge]

/-- C9: the result of `Check` depends only on the access-token string, the
refresh-token string and the current time: two sessions agreeing on
`AccessJwt` and `RefreshJwt` receive the same result at the same time,
whatever their handle, DID or email. -/
theorem check_depends_only_on_tokens (now : Int)
    (s1 s2 : ServerCreateSession_Output)
    (ha : s1.accessJwt = s2.accessJwt)
    (hr : s1.refreshJwt = s2.refreshJwt) :
    Check now s1 = Check now s2 := by
  simp [Check, ha, hr]

/-- Witness for C9: two sessions with identical tokens but different handle,
DID and email receive the same result. -/
theorem check_depends_only_on_tokens_witness :
    Check 0
        { accessJwt :=
            .valid [("scope", .str "com.atproto.appPass"), ("exp", .num 100)],
          refreshJwt := .valid [("exp", .num 100)],
          handle := "alice.test", did := "did:plc:abc", email := none }
      = Check 0
          { accessJwt :=
              .valid [("scope", .str "com.atproto.appPass"), ("exp", .num 100)],
            refreshJwt := .valid [("exp", .num 100)],
            handle := "bob.test", did := "did:plc:xyz",
            email := some "bob@example.com" } :=
  check_depends_only_on_tokens 0 _ _ rfl rfl

/-- Session exhibiting the C10 defect: its access token decodes with scope
"com.atproto.appPass" but carries no "exp" claim. -/
def c10Session : ServerCreateSession_Output :=
  { accessJwt := .valid [("scope", .str "com.atproto.appPass")],
    refreshJwt := .valid [("exp", .num 100)],
    handle := "alice.test", did := "did:plc:abc", email := none }

/-- C10 (code defect): when the access token decodes with the application-key
scope but no expiration claim, `GetExpirationTime` returns neither an error
nor a date, and the Go code then selects `current.Time` on a nil
`*jwt.NumericDate` inside `time.Until(current.Time)` — a nil pointer
dereference, not a returned error.  `Check` is therefore not total: this
input panics instead of yielding a nil-or-error result. -/
theorem check_missing_exp_panics :
    GetExpirationTime [("scope", JSONValue.str "com.atproto.appPass")]
      = .ok none ∧
    Check 0 c10Session =
      .panicked
        "runtime error: invalid memory address or nil pointer dereference" := by
  constructor
  · rfl
  · decide

end Appkey
